import Mathlib

/-
Verification of the WebRTC transport layer of the ion media-forwarding
server (pkg/rtc/webrtctransport.go) against its natural-language
specification.

Embedding conventions:
- Go machine integers (uint32 SSRCs, uint8 payload types, uint16 sequence
  numbers, uint64 byte rates) are modelled as Nat; the quantities involved
  (payload types, clamped bandwidths, sequence numbers reduced mod 65536)
  stay far below any wrap-around boundary of their Go types.
- The float64 loss rate and the float64 bandwidth computation of sendREMB
  are modelled exactly over the rationals; the Go conversion
  uint64(float64 expression) truncates a nonnegative value toward zero,
  which is Int.toNat of the floor.
- Effectful operations are modelled by explicit state passing: a peer
  connection carries the list of RTCP packets written to it, a track
  carries the list of RTP packets written to it.
- Fallible operations return Option or Except, and a Go runtime panic
  (close of an already-closed channel, failed type assertion) is the
  none / error case of the model.
-/

namespace Ion

/-- An RTP packet, reduced to the fields the transport inspects:
its stream identifier (SSRC) and its sequence number. -/
structure RTPPacket where
  ssrc : Nat
  seq : Nat
  deriving DecidableEq

/-- An rtcp.NackPair: a base packet id plus a 16-bit bitmask of further
lost packets (pion/rtcp). -/
structure NackPair where
  packetID : Nat
  lostPackets : Nat
  deriving DecidableEq

/-- An rtcp.TransportLayerNack retransmission request. -/
structure TransportLayerNack where
  senderSSRC : Nat
  mediaSSRC : Nat
  nacks : List NackPair
  deriving DecidableEq

/-- An rtcp.ReceiverEstimatedMaximumBitrate bandwidth-estimate report. -/
structure RembPacket where
  senderSSRC : Nat
  bitrate : Nat
  ssrcs : List Nat
  deriving DecidableEq

/-- The RTCP packets this transport writes out. -/
inductive RTCPPacket
  | nack (n : TransportLayerNack)
  | remb (r : RembPacket)
  | pli (senderSSRC mediaSSRC : Nat)
  deriving DecidableEq

/-- The peer connection handle, modelled by the log of RTCP packets
written to it via WriteRTCP. -/
structure PeerConn where
  rtcpOut : List RTCPPacket
  deriving DecidableEq

/-- A webrtc.Track handle: its negotiated payload type and the log of RTP
packets written out on it. -/
structure Track where
  payloadType : Nat
  written : List RTPPacket
  deriving DecidableEq

/-- WebRTCTransport state. The Go track map is modelled as an association
list whose order is the iteration order of the map; ssrcPTRef is the
reference (heap address) of the shared ssrcPT map, see the SSRCPT
section below. -/
structure Transport where
  id : String
  pc : Option PeerConn
  track : List (Nat × Track)
  ssrcPTRef : Nat
  byteRate : Nat
  isLostPacket : Bool
  hasVideo : Bool
  hasAudio : Bool
  hasScreen : Bool
  errCount : Nat
  deriving DecidableEq

/-- webrtc.DefaultPayloadTypeOpus (pion/webrtc v2). -/
def payloadTypeOpus : Nat := 111

/-- webrtc.DefaultPayloadTypeVP8 (pion/webrtc v2). -/
def payloadTypeVP8 : Nat := 96

/-- webrtc.DefaultPayloadTypeVP9 (pion/webrtc v2). -/
def payloadTypeVP9 : Nat := 98

/-- webrtc.DefaultPayloadTypeH264 (pion/webrtc v2). -/
def payloadTypeH264 : Nat := 102

/-- rembLowBW = 30 * 1000 (webrtctransport.go line 23). -/
def rembLowBW : Nat := 30 * 1000

/-- rembHighBW = 100 * 1000 (webrtctransport.go line 24). -/
def rembHighBW : Nat := 100 * 1000

/-- The payload-type test used by sendREMB (lines 436-438): VP8, H264 or
VP9 marks a video track. -/
def isVideoPT (pt : Nat) : Bool :=
  pt = payloadTypeVP8 || pt = payloadTypeH264 || pt = payloadTypeVP9

/-- The videoSSRC scan of sendREMB (lines 434-442): iterate the track
table and keep the last stream id whose track is a video track; zero if
none is found. -/
def findVideoSSRC (track : List (Nat × Track)) : Nat :=
  track.foldl (fun acc e => if isVideoPT e.2.payloadType then e.1 else acc) 0

/-- The bandwidth proposal of sendREMB (lines 444-451): the high bound
when the loss rate is zero and no byte rate has been observed, double the
byte rate while the loss rate is below 0.1, and otherwise
byteRate * (1 - lostRate) truncated to an integer. -/
def rembPropose (lostRate : ℚ) (byteRate : Nat) : Nat :=
  if lostRate = 0 ∧ byteRate = 0 then rembHighBW
  else if 0 ≤ lostRate ∧ lostRate < 1/10 then byteRate * 2
  else Int.toNat ⌊(byteRate : ℚ) * (1 - lostRate)⌋

/-- The clamping of sendREMB (lines 453-459): raise to rembLowBW, then
cap at rembHighBW. -/
def rembClamp (bw : Nat) : Nat :=
  if rembHighBW < (if bw < rembLowBW then rembLowBW else bw) then rembHighBW
  else (if bw < rembLowBW then rembLowBW else bw)

/-- sendREMB (lines 429-468): reject a loss rate outside the unit
interval, otherwise emit a bandwidth-estimate report addressed to the
video stream id whose bitrate is the clamped proposal times eight. -/
def sendREMB (t : Transport) (lostRate : ℚ) : Option RembPacket :=
  if lostRate > 1 ∨ lostRate < 0 then none
  else
    some { senderSSRC := findVideoSSRC t.track
           bitrate := rembClamp (rembPropose lostRate t.byteRate) * 8
           ssrcs := [findVideoSSRC t.track] }

theorem rembClamp_low (bw : Nat) : rembLowBW ≤ rembClamp bw := by
  simp only [rembClamp, rembLowBW, rembHighBW]
  split_ifs <;> omega

theorem rembClamp_high (bw : Nat) : rembClamp bw ≤ rembHighBW := by
  simp only [rembClamp, rembLowBW, rembHighBW]
  split_ifs <;> omega

theorem rembClamp_mono {a b : Nat} (h : a ≤ b) : rembClamp a ≤ rembClamp b := by
  simp only [rembClamp, rembLowBW, rembHighBW]
  split_ifs <;> omega

theorem floor_nonneg_mul {R : Nat} {q : ℚ} (hq : 0 ≤ q) :
    Int.toNat ⌊(R : ℚ) * (1 - q)⌋ ≤ R := by
  have h1 : (R : ℚ) * (1 - q) ≤ (R : ℚ) := by
    have h2 : (R : ℚ) * (1 - q) ≤ (R : ℚ) * 1 :=
      mul_le_mul_of_nonneg_left (by linarith) (by positivity)
    simpa using h2
  have h3 : ⌊(R : ℚ) * (1 - q)⌋ ≤ ⌊(R : ℚ)⌋ := Int.floor_le_floor h1
  rw [Int.floor_natCast] at h3
  calc Int.toNat ⌊(R : ℚ) * (1 - q)⌋ ≤ Int.toNat (R : ℤ) := Int.toNat_le_toNat h3
    _ = R := Int.toNat_natCast R

/-- The pre-clamp proposal is antitone in the loss rate on the unit
interval, for a fixed byte rate. -/
theorem rembPropose_anti (R : Nat) {L₁ L₂ : ℚ} (h0 : 0 ≤ L₁) (h12 : L₁ ≤ L₂)
    (h21 : L₂ ≤ 1) : rembPropose L₂ R ≤ rembPropose L₁ R := by
  have h02 : 0 ≤ L₂ := le_trans h0 h12
  simp only [rembPropose]
  by_cases hA2 : L₂ = 0 ∧ R = 0
  · have hA1 : L₁ = 0 ∧ R = 0 := ⟨le_antisymm (hA2.1 ▸ h12) h0, hA2.2⟩
    rw [if_pos hA2, if_pos hA1]
  · rw [if_neg hA2]
    by_cases hA1 : L₁ = 0 ∧ R = 0
    · -- the high bound for L₁ dominates either remaining branch, since R = 0
      rw [if_pos hA1]
      rw [hA1.2]
      split_ifs with hB2
      · norm_num [rembHighBW]
      · norm_num [rembHighBW]
    · rw [if_neg hA1]
      by_cases hB1 : 0 ≤ L₁ ∧ L₁ < 1/10
      · rw [if_pos hB1]
        by_cases hB2 : 0 ≤ L₂ ∧ L₂ < 1/10
        · rw [if_pos hB2]
        · rw [if_neg hB2]
          calc Int.toNat ⌊(R : ℚ) * (1 - L₂)⌋ ≤ R := floor_nonneg_mul h02
            _ ≤ R * 2 := by omega
      · -- here 1/10 ≤ L₁ ≤ L₂, so both sides take the floor branch
        have hB2 : ¬(0 ≤ L₂ ∧ L₂ < 1/10) := by
          rintro ⟨-, hc⟩
          exact hB1 ⟨h0, lt_of_le_of_lt h12 hc⟩
        rw [if_neg hB1, if_neg hB2]
        have hmul : (R : ℚ) * (1 - L₂) ≤ (R : ℚ) * (1 - L₁) :=
          mul_le_mul_of_nonneg_left (by linarith) (by positivity)
        exact Int.toNat_le_toNat (Int.floor_le_floor hmul)

/-- C1: sendREMB is a no-op for a loss rate outside the unit interval;
otherwise it proposes the high bound when the loss rate is zero and the
observed byte rate is zero, double the byte rate when the loss rate is
below 0.1, and byteRate * (1 - lossRate) truncated otherwise, clamps the
proposal to the band between rembLowBW and rembHighBW, and emits a report
whose bitrate is the clamped byte value times eight, addressed to the
video stream id. -/
theorem sendREMB_spec (t : Transport) (L : ℚ) :
    ((L > 1 ∨ L < 0) → sendREMB t L = none) ∧
    (L = 0 → t.byteRate = 0 →
      sendREMB t L = some { senderSSRC := findVideoSSRC t.track
                            bitrate := rembHighBW * 8
                            ssrcs := [findVideoSSRC t.track] }) ∧
    (0 ≤ L → L < 1/10 → ¬(L = 0 ∧ t.byteRate = 0) →
      sendREMB t L = some { senderSSRC := findVideoSSRC t.track
                            bitrate := rembClamp (t.byteRate * 2) * 8
                            ssrcs := [findVideoSSRC t.track] }) ∧
    (1/10 ≤ L → L ≤ 1 →
      sendREMB t L = some { senderSSRC := findVideoSSRC t.track
                            bitrate := rembClamp (Int.toNat ⌊(t.byteRate : ℚ) * (1 - L)⌋) * 8
                            ssrcs := [findVideoSSRC t.track] }) := by
  refine ⟨fun h => ?_, fun h0 hR => ?_, fun h0 hlt hnot => ?_, fun hge hle => ?_⟩
  · rw [sendREMB, if_pos h]
  · have hvalid : ¬(L > 1 ∨ L < 0) := by
      subst h0; push_neg; constructor <;> norm_num
    rw [sendREMB, if_neg hvalid, rembPropose, if_pos ⟨h0, hR⟩]
    have hclamp : rembClamp rembHighBW = rembHighBW := by
      simp [rembClamp, rembLowBW, rembHighBW]
    rw [hclamp]
  · have hvalid : ¬(L > 1 ∨ L < 0) := by
      push_neg
      constructor
      · linarith [hlt]
      · exact h0
    rw [sendREMB, if_neg hvalid, rembPropose, if_neg hnot, if_pos ⟨h0, hlt⟩]
  · have hvalid : ¬(L > 1 ∨ L < 0) := by
      push_neg
      refine ⟨hle, by linarith⟩
    have hne : ¬(L = 0 ∧ t.byteRate = 0) := by
      rintro ⟨h, -⟩
      rw [h] at hge
      linarith
    have hne2 : ¬(0 ≤ L ∧ L < 1/10) := by
      rintro ⟨-, h⟩
      linarith
    rw [sendREMB, if_neg hvalid, rembPropose, if_neg hne, if_neg hne2]

/-- Witness for C1 at concrete inputs: an invalid loss rate 3/2 emits
nothing, and at loss rate 1 with byte rate 50000 the report carries the
clamped truncated product times eight. -/
theorem sendREMB_spec_witness :
    (sendREMB ⟨"pub", none, [], 0, 50000, false, true, false, false, 0⟩ (3/2) = none) ∧
    (sendREMB ⟨"pub", none, [], 0, 0, false, true, false, false, 0⟩ 0 =
      some { senderSSRC := 0, bitrate := rembHighBW * 8, ssrcs := [0] }) ∧
    (sendREMB ⟨"pub", none, [], 0, 50000, false, true, false, false, 0⟩ 0 =
      some { senderSSRC := 0, bitrate := rembClamp (50000 * 2) * 8, ssrcs := [0] }) ∧
    (sendREMB ⟨"pub", none, [], 0, 50000, false, true, false, false, 0⟩ 1 =
      some { senderSSRC := 0
             bitrate := rembClamp (Int.toNat ⌊((50000 : Nat) : ℚ) * (1 - 1)⌋) * 8
             ssrcs := [0] }) := by
  refine ⟨(sendREMB_spec _ _).1 (Or.inl (by norm_num)),
          (sendREMB_spec _ _).2.1 rfl rfl,
          (sendREMB_spec _ _).2.2.1 (le_refl 0) (by norm_num) (by simp),
          (sendREMB_spec _ _).2.2.2 (by norm_num) (le_refl 1)⟩

/-- C6: for a fixed byte rate the emitted estimate (the clamped proposal,
before the times-eight bit conversion) is antitone in the loss rate over
the unit interval, and always lies between rembLowBW and rembHighBW. -/
theorem remb_monotone_bounded (R : Nat) :
    (∀ L₁ L₂ : ℚ, 0 ≤ L₁ → L₁ ≤ L₂ → L₂ ≤ 1 →
      rembClamp (rembPropose L₂ R) ≤ rembClamp (rembPropose L₁ R)) ∧
    (∀ L : ℚ, 0 ≤ L → L ≤ 1 →
      rembLowBW ≤ rembClamp (rembPropose L R) ∧
      rembClamp (rembPropose L R) ≤ rembHighBW) :=
  ⟨fun _ _ h0 h12 h21 => rembClamp_mono (rembPropose_anti R h0 h12 h21),
   fun L _ _ => ⟨rembClamp_low (rembPropose L R), rembClamp_high (rembPropose L R)⟩⟩

/-- Witness for C6 at byte rate 50000 with loss rates 0 and 1. -/
theorem remb_monotone_bounded_witness :
    rembClamp (rembPropose 1 50000) ≤ rembClamp (rembPropose 0 50000) ∧
    rembLowBW ≤ rembClamp (rembPropose 1 50000) ∧
    rembClamp (rembPropose 1 50000) ≤ rembHighBW :=
  ⟨(remb_monotone_bounded 50000).1 0 1 (le_refl 0) zero_le_one (le_refl 1),
   (remb_monotone_bounded 50000).2 1 zero_le_one (le_refl 1)⟩

/-- The error results of WriteRTP: errInvalidPacket when the packet is
nil, errInvalidTrack when no track is registered for its SSRC
(webrtctransport.go lines 30-33). -/
inductive WriteErr
  | errInvalidPacket
  | errInvalidTrack
  deriving DecidableEq

/-- Lookup in the track table: t.track[pkt.SSRC] under the read lock. -/
def trackLookup (l : List (Nat × Track)) (ssrc : Nat) : Option Track :=
  match l with
  | [] => none
  | (k, tr) :: rest => if k = ssrc then some tr else trackLookup rest ssrc

/-- track.WriteRTP(pkt): append the packet to the write log of the track
registered under the packet SSRC. -/
def trackWrite (l : List (Nat × Track)) (p : RTPPacket) : List (Nat × Track) :=
  l.map (fun e =>
    if e.1 = p.ssrc then (e.1, { e.2 with written := e.2.written ++ [p] }) else e)

/-- WriteRTP (lines 271-284): errInvalidPacket on a nil packet, otherwise
look up the track for the packet SSRC and write the packet to it, or
errInvalidTrack (dropping the packet) when no track is registered. The
pair returned is (error, updated transport). -/
def WriteRTP (t : Transport) (pkt : Option RTPPacket) : Option WriteErr × Transport :=
  match pkt with
  | none => (some WriteErr.errInvalidPacket, t)
  | some p =>
    match trackLookup t.track p.ssrc with
    | some _ => (none, { t with track := trackWrite t.track p })
    | none => (some WriteErr.errInvalidTrack, t)

theorem trackLookup_trackWrite_self {l : List (Nat × Track)} {p : RTPPacket}
    {tr : Track} (h : trackLookup l p.ssrc = some tr) :
    trackLookup (trackWrite l p) p.ssrc =
      some { tr with written := tr.written ++ [p] } := by
  induction l with
  | nil => simp [trackLookup] at h
  | cons e rest ih =>
    obtain ⟨k, tr₁⟩ := e
    simp only [trackWrite, List.map_cons]
    by_cases he : k = p.ssrc
    · subst he
      simp [trackLookup] at h
      subst h
      split_ifs with hc
      · simp [trackLookup]
      · exact absurd rfl hc
    · simp [trackLookup, he] at h
      have hrec := ih h
      simp only [trackWrite] at hrec
      split_ifs
      simp only [trackLookup, if_neg he]
      exact hrec

theorem trackLookup_trackWrite_other {l : List (Nat × Track)} {p : RTPPacket}
    {s : Nat} (h : s ≠ p.ssrc) :
    trackLookup (trackWrite l p) s = trackLookup l s := by
  induction l with
  | nil => simp [trackWrite, trackLookup]
  | cons e rest ih =>
    obtain ⟨k, tr₁⟩ := e
    simp only [trackWrite, List.map_cons] at ih ⊢
    by_cases he : k = p.ssrc
    · subst he
      have hne : p.ssrc ≠ s := fun hc => h hc.symm
      split_ifs with hc
      · simp only [trackLookup, if_neg hne]
        exact ih
      · exact absurd rfl hc
    · split_ifs
      by_cases hs : k = s
      · subst hs
        simp [trackLookup]
      · simp only [trackLookup, if_neg hs]
        exact ih

/-- C7: WriteRTP returns errInvalidPacket on a nil packet; it returns
errInvalidTrack and leaves the transport (hence every track and the
connection) unchanged when no track is registered for the packet SSRC;
and when a matching track exists it succeeds, appends the packet to that
track, and leaves every other stream untouched. -/
theorem WriteRTP_spec (t : Transport) (pkt : Option RTPPacket) :
    (pkt = none → WriteRTP t pkt = (some WriteErr.errInvalidPacket, t)) ∧
    (∀ p, pkt = some p → trackLookup t.track p.ssrc = none →
      WriteRTP t pkt = (some WriteErr.errInvalidTrack, t)) ∧
    (∀ p tr, pkt = some p → trackLookup t.track p.ssrc = some tr →
      (WriteRTP t pkt).1 = none ∧
      trackLookup (WriteRTP t pkt).2.track p.ssrc =
        some { tr with written := tr.written ++ [p] } ∧
      (∀ s, s ≠ p.ssrc →
        trackLookup (WriteRTP t pkt).2.track s = trackLookup t.track s) ∧
      (WriteRTP t pkt).2.pc = t.pc) := by
  refine ⟨fun h => ?_, fun p hp hmiss => ?_, fun p tr hp hhit => ?_⟩
  · rw [h]; rfl
  · rw [hp]; simp [WriteRTP, hmiss]
  · rw [hp]
    refine ⟨?_, ?_, fun s hs => ?_, ?_⟩
    · simp [WriteRTP, hhit]
    · simp only [WriteRTP, hhit]
      exact trackLookup_trackWrite_self hhit
    · simp only [WriteRTP, hhit]
      exact trackLookup_trackWrite_other hs
    · simp [WriteRTP, hhit]

/-- Witness for C7 on a transport with tracks for streams 1 and 2: a nil
packet, a packet for unregistered stream 9, and a packet for stream 1. -/
theorem WriteRTP_spec_witness :
    (WriteRTP ⟨"sub", none, [(1, ⟨96, []⟩), (2, ⟨111, []⟩)], 0, 0, false, false, false, false, 0⟩ none
      = (some WriteErr.errInvalidPacket,
         ⟨"sub", none, [(1, ⟨96, []⟩), (2, ⟨111, []⟩)], 0, 0, false, false, false, false, 0⟩)) ∧
    (WriteRTP ⟨"sub", none, [(1, ⟨96, []⟩), (2, ⟨111, []⟩)], 0, 0, false, false, false, false, 0⟩ (some ⟨9, 7⟩)
      = (some WriteErr.errInvalidTrack,
         ⟨"sub", none, [(1, ⟨96, []⟩), (2, ⟨111, []⟩)], 0, 0, false, false, false, false, 0⟩)) ∧
    ((WriteRTP ⟨"sub", none, [(1, ⟨96, []⟩), (2, ⟨111, []⟩)], 0, 0, false, false, false, false, 0⟩ (some ⟨1, 7⟩)).1 = none ∧
      trackLookup (WriteRTP ⟨"sub", none, [(1, ⟨96, []⟩), (2, ⟨111, []⟩)], 0, 0, false, false, false, false, 0⟩ (some ⟨1, 7⟩)).2.track 1
        = some ⟨96, [⟨1, 7⟩]⟩ ∧
      trackLookup (WriteRTP ⟨"sub", none, [(1, ⟨96, []⟩), (2, ⟨111, []⟩)], 0, 0, false, false, false, false, 0⟩ (some ⟨1, 7⟩)).2.track 2
        = trackLookup [(1, ⟨96, []⟩), (2, ⟨111, []⟩)] 2) := by
  refine ⟨(WriteRTP_spec _ _).1 rfl, (WriteRTP_spec _ _).2.1 ⟨9, 7⟩ rfl rfl, ?_⟩
  have h := (WriteRTP_spec ⟨"sub", none, [(1, ⟨96, []⟩), (2, ⟨111, []⟩)], 0, 0, false, false, false, false, 0⟩
    (some ⟨1, 7⟩)).2.2 ⟨1, 7⟩ ⟨96, []⟩ rfl rfl
  exact ⟨h.1, h.2.1, h.2.2.1 2 (by decide)⟩

/-- sendNack (lines 421-427): a no-op when the peer connection handle is
nil; otherwise it sets the loss-observed flag and writes exactly the
supplied retransmission report to the connection. -/
def sendNack (t : Transport) (n : TransportLayerNack) : Transport :=
  match t.pc with
  | none => t
  | some pc =>
    { t with isLostPacket := true
             pc := some { pc with rtcpOut := pc.rtcpOut ++ [RTCPPacket.nack n] } }

/-- C10: sendNack returns the transport unchanged when the peer
connection handle is nil, and otherwise sets isLostPacket and appends
exactly the supplied report to the RTCP output of the connection. -/
theorem sendNack_spec (t : Transport) (n : TransportLayerNack) :
    (t.pc = none → sendNack t n = t) ∧
    (∀ pc, t.pc = some pc →
      sendNack t n =
        { t with isLostPacket := true
                 pc := some { pc with rtcpOut := pc.rtcpOut ++ [RTCPPacket.nack n] } }) := by
  constructor
  · intro h
    simp [sendNack, h]
  · intro pc h
    simp [sendNack, h]

/-- Witness for C10 on a transport with no connection and on one with an
empty RTCP log. -/
theorem sendNack_spec_witness :
    (sendNack ⟨"pub", none, [], 0, 0, false, false, false, false, 0⟩ ⟨5, 6, [⟨7, 0⟩]⟩
      = ⟨"pub", none, [], 0, 0, false, false, false, false, 0⟩) ∧
    (sendNack ⟨"pub", some ⟨[]⟩, [], 0, 0, false, false, false, false, 0⟩ ⟨5, 6, [⟨7, 0⟩]⟩
      = ⟨"pub", some ⟨[RTCPPacket.nack ⟨5, 6, [⟨7, 0⟩]⟩]⟩, [], 0, 0, true, false, false, false, 0⟩) :=
  ⟨(sendNack_spec _ _).1 rfl, (sendNack_spec _ _).2 ⟨[]⟩ rfl⟩

/-- The per-transport stream-id-to-payload-type table (Go
map[uint32]uint8), as a value on the heap. -/
abbrev SSRCPTMap := List (Nat × Nat)

/-- The heap of shared map backing stores: a Go map variable is a
reference into this heap, and two holders of the same reference observe
the same backing store. -/
abbrev Heap := Nat → SSRCPTMap

/-- Lookup in an ssrcPT backing store. -/
def ptLookup (m : SSRCPTMap) (k : Nat) : Option Nat :=
  match m with
  | [] => none
  | (k₁, v) :: rest => if k₁ = k then some v else ptLookup rest k

/-- Go map assignment m[k] = v on a backing store. -/
def ptInsert (m : SSRCPTMap) (k v : Nat) : SSRCPTMap := (k, v) :: m

/-- Replace the backing store a reference points to. -/
def heapUpdate (h : Heap) (r : Nat) (m : SSRCPTMap) : Heap :=
  fun r₁ => if r₁ = r then m else h r₁

/-- Read a key through a map reference. -/
def heapRead (h : Heap) (r : Nat) (k : Nat) : Option Nat := ptLookup (h r) k

/-- SSRCPT (lines 414-419): returns t.ssrcPT under the read lock. In Go
this returns the map reference itself, not a copy of the table. -/
def SSRCPT (t : Transport) : Nat := t.ssrcPTRef

/-- The OnTrack handler mutation (lines 134-136): insert a newly
discovered stream into the shared ssrcPT backing store of the transport,
under the write lock. -/
def onTrackInsert (h : Heap) (t : Transport) (ssrc pt : Nat) : Heap :=
  heapUpdate h t.ssrcPTRef (ptInsert (h t.ssrcPTRef) ssrc pt)

/-- A concrete transport and heap for the SSRCPT counterexample. -/
def snapTransport : Transport := ⟨"pub", none, [], 0, 0, false, false, false, false, 0⟩

/-- The heap in which every backing store is empty. -/
def emptyHeap : Heap := fun _ => []

/-- C8 counterexample: the mapping obtained from SSRCPT is not a
snapshot.  On a transport whose table is empty, a caller holding the
result of SSRCPT reads nothing for stream 1; after the read loop
discovers stream 1 with payload type 96, the same held result yields
payload type 96 — the mutation performed after the call changed the
mapping the caller already received. -/
theorem SSRCPT_not_snapshot :
    heapRead emptyHeap (SSRCPT snapTransport) 1 = none ∧
    heapRead (onTrackInsert emptyHeap snapTransport 1 96) (SSRCPT snapTransport) 1 =
      some 96 :=
  ⟨rfl, rfl⟩

/-- C8 amended: SSRCPT returns a reference aliasing the internal table
(read under the lock), not a snapshot; a mutation performed after the
call is visible through the mapping the caller already received. -/
theorem SSRCPT_alias_visible (h : Heap) (t : Transport) (ssrc pt : Nat) :
    heapRead (onTrackInsert h t ssrc pt) (SSRCPT t) ssrc = some pt := by
  simp [heapRead, onTrackInsert, heapUpdate, ptInsert, ptLookup, SSRCPT]

/-- A value stored in the AnswerPublish options map
(Go map[string]interface\x7b\x7d). -/
inductive OptVal
  | str (s : String)
  | boolean (b : Bool)
  | other
  deriving DecidableEq

/-- The codecs AnswerPublish can register with the media engine. -/
inductive CodecKind
  | opus
  | vp8
  | vp9
  | h264
  deriving DecidableEq

/-- One RegisterCodec call: which codec, its payload type and its clock
rate. -/
structure CodecEntry where
  kind : CodecKind
  payloadType : Nat
  clockRate : Nat
  deriving DecidableEq

/-- strings.EqualFold restricted to the ASCII arguments AnswerPublish
compares (h264, vp9): case-insensitive equality by folding upper-case
ASCII letters to lower case. -/
def eqFold (a b : String) : Bool :=
  a.data.map (fun c => if 65 ≤ c.toNat ∧ c.toNat ≤ 90 then c.toNat + 32 else c.toNat)
    == b.data.map (fun c => if 65 ≤ c.toNat ∧ c.toNat ≤ 90 then c.toNat + 32 else c.toNat)

/-- Lookup of a key in the options map. -/
def optLookup (l : List (String × OptVal)) (k : String) : Option OptVal :=
  match l with
  | [] => none
  | (k₁, v) :: rest => if k₁ = k then some v else optLookup rest k

/-- The media-engine codec registration of AnswerPublish (lines 85-102):
nil options are rejected; Opus is always registered; a video codec is
registered only inside the branch taken when the options map has a codec
key, choosing H264 or VP9 on a case-insensitive match and VP8 for every
other string. A codec value that is not a string makes the Go type
assertion codec.(string) panic, modelled as the error case. -/
def answerPublishCodecs (options : Option (List (String × OptVal))) :
    Except String (List CodecEntry) :=
  match options with
  | none => Except.error "invalid options"
  | some opts =>
    let base := [CodecEntry.mk CodecKind.opus payloadTypeOpus 48000]
    match optLookup opts "codec" with
    | none => Except.ok base
    | some (OptVal.str s) =>
      if eqFold s "h264" then Except.ok (base ++ [CodecEntry.mk CodecKind.h264 payloadTypeH264 90000])
      else if eqFold s "vp9" then Except.ok (base ++ [CodecEntry.mk CodecKind.vp9 payloadTypeVP9 90000])
      else Except.ok (base ++ [CodecEntry.mk CodecKind.vp8 payloadTypeVP8 90000])
    | some _ => Except.error "panic: interface conversion"

/-- The list of codecs a call registers (empty on rejection or panic). -/
def registeredCodecs (options : Option (List (String × OptVal))) : List CodecEntry :=
  match answerPublishCodecs options with
  | Except.ok l => l
  | Except.error _ => []

/-- C4 counterexample: with non-absent options that have no codec key,
only Opus is registered — no VP8 video codec is registered at all, so
the result differs from the explicit codec vp8 case. -/
theorem answerPublish_no_codec_key_no_vp8 :
    registeredCodecs (some []) = [CodecEntry.mk CodecKind.opus payloadTypeOpus 48000] ∧
    registeredCodecs (some [("codec", OptVal.str "vp8")]) =
      [CodecEntry.mk CodecKind.opus payloadTypeOpus 48000,
       CodecEntry.mk CodecKind.vp8 payloadTypeVP8 90000] ∧
    registeredCodecs (some []) ≠ registeredCodecs (some [("codec", OptVal.str "vp8")]) := by
  refine ⟨rfl, rfl, ?_⟩
  decide

/-- C4 amended: the vp8 default applies only when a codec key is present
with a string value that matches neither h264 nor vp9 case-insensitively;
such a call registers exactly what an explicit vp8 request registers.
When the codec key is absent, no video codec is registered at all. -/
theorem answerPublish_vp8_default (s : String)
    (h1 : eqFold s "h264" = false) (h2 : eqFold s "vp9" = false) :
    answerPublishCodecs (some [("codec", OptVal.str s)]) =
      answerPublishCodecs (some [("codec", OptVal.str "vp8")]) ∧
    answerPublishCodecs (some []) =
      Except.ok [CodecEntry.mk CodecKind.opus payloadTypeOpus 48000] := by
  constructor
  · have hv1 : eqFold "vp8" "h264" = false := by decide
    have hv2 : eqFold "vp8" "vp9" = false := by decide
    simp [answerPublishCodecs, optLookup, h1, h2, hv1, hv2]
  · rfl

/-- Witness for C4 amended at the unrecognized codec string foo. -/
theorem answerPublish_vp8_default_witness :
    answerPublishCodecs (some [("codec", OptVal.str "foo")]) =
      answerPublishCodecs (some [("codec", OptVal.str "vp8")]) ∧
    answerPublishCodecs (some []) =
      Except.ok [CodecEntry.mk CodecKind.opus payloadTypeOpus 48000] :=
  answerPublish_vp8_default "foo" (by decide) (by decide)

/-- NackPair.PacketList (pion/rtcp): the base packet id followed by the
ids encoded by the set bits of the 16-bit lost-packets mask, each offset
by its bit position plus one, with uint16 wrap-around. -/
def NackPair.packetList (p : NackPair) : List Nat :=
  p.packetID :: (List.range 16).filterMap (fun i =>
    if p.lostPackets.testBit i then some ((p.packetID + i + 1) % 65536) else none)

/-- Modelled from the spec: the Forwarding Pipeline is not under src
(only its caller subReadRTCP is), so its retransmit cache is taken from
the spec — a bounded cache keyed by (stream identifier, sequence number)
from which writePacket replays a packet, reporting true on a cache hit
and false on a miss (spec sections 4.2 and 4.3,
writeCachedOrForwardToPublisher). -/
structure Pipeline where
  cache : List (Nat × Nat)
  deriving DecidableEq

/-- Modelled from the spec: pipeline.writePacket(id, ssrc, sn) replays
the cached packet for (ssrc, sn) and returns whether the cache held it. -/
def Pipeline.writePacket (pl : Pipeline) (_tid : String) (ssrc sn : Nat) : Bool :=
  pl.cache.contains (ssrc, sn)

/-- The body of the per-sequence-number branch of subReadRTCP (lines
390-399): a cache hit produces nothing, a cache miss synthesizes one
retransmission request for exactly that sequence number, keeping the
original sender and media stream identifiers. -/
def processSn (pl : Pipeline) (tid : String) (nk : TransportLayerNack) (sn : Nat) :
    Option TransportLayerNack :=
  if pl.writePacket tid nk.mediaSSRC sn then none
  else some { senderSSRC := nk.senderSSRC, mediaSSRC := nk.mediaSSRC, nacks := [⟨sn, 0⟩] }

/-- All sequence numbers a TransportLayerNack requests, in processing
order (the expansion of the two nested loops of lines 387-389). -/
def nackExpansion (nk : TransportLayerNack) : List Nat :=
  nk.nacks.flatMap NackPair.packetList

/-- The sequence of requests subReadRTCP synthesizes toward the
publisher while processing one TransportLayerNack (lines 387-399). -/
def synthNacks (pl : Pipeline) (tid : String) (nk : TransportLayerNack) :
    List TransportLayerNack :=
  nk.nacks.flatMap (fun np => np.packetList.filterMap (processSn pl tid nk))

theorem mem_synthNacks {pl : Pipeline} {tid : String} {nk : TransportLayerNack}
    {r : TransportLayerNack} (hr : r ∈ synthNacks pl tid nk) :
    ∃ s, s ∈ nackExpansion nk ∧ pl.writePacket tid nk.mediaSSRC s = false ∧
      r = { senderSSRC := nk.senderSSRC, mediaSSRC := nk.mediaSSRC, nacks := [⟨s, 0⟩] } := by
  simp only [synthNacks, List.mem_flatMap, List.mem_filterMap] at hr
  obtain ⟨np, hnp, s, hs, hproc⟩ := hr
  refine ⟨s, List.mem_flatMap.mpr ⟨np, hnp, hs⟩, ?_⟩
  by_cases hw : pl.writePacket tid nk.mediaSSRC s = true
  · rw [processSn, if_pos hw] at hproc
    cases hproc
  · rw [processSn, if_neg hw] at hproc
    cases hproc
    exact ⟨Bool.eq_false_iff.mpr hw, rfl⟩

theorem count_processSn (pl : Pipeline) (tid : String) (nk : TransportLayerNack)
    (sn : Nat) (sns : List Nat) :
    (sns.filterMap (processSn pl tid nk)).count
        { senderSSRC := nk.senderSSRC, mediaSSRC := nk.mediaSSRC,
          nacks := [NackPair.mk sn 0] } =
      if pl.writePacket tid nk.mediaSSRC sn then 0 else sns.count sn := by
  induction sns with
  | nil => simp
  | cons a rest ih =>
    by_cases hw : pl.writePacket tid nk.mediaSSRC a = true
    · have hnone : processSn pl tid nk a = none := by rw [processSn, if_pos hw]
      rw [List.filterMap_cons_none hnone, ih]
      by_cases ha : a = sn
      · subst ha
        rw [if_pos hw, if_pos hw]
      · split_ifs
        · rfl
        · exact (List.count_cons_of_ne (fun hc => ha hc.symm) rest).symm
    · have hsome : processSn pl tid nk a =
          some { senderSSRC := nk.senderSSRC, mediaSSRC := nk.mediaSSRC,
                 nacks := [NackPair.mk a 0] } := by
        rw [processSn, if_neg hw]
      rw [List.filterMap_cons_some hsome]
      by_cases ha : a = sn
      · subst ha
        rw [List.count_cons_self, ih, if_neg hw, if_neg hw, List.count_cons_self]
      · have hne : ({ senderSSRC := nk.senderSSRC,
                      mediaSSRC := nk.mediaSSRC,
                      nacks := [NackPair.mk sn 0] } : TransportLayerNack) ≠
            { senderSSRC := nk.senderSSRC,
              mediaSSRC := nk.mediaSSRC,
              nacks := [NackPair.mk a 0] } := by
          intro hc
          injection hc with hs hm hn
          injection hn with hh ht
          injection hh with hp hl
          exact ha hp.symm
        rw [List.count_cons_of_ne hne, ih]
        split_ifs
        · rfl
        · exact (List.count_cons_of_ne (fun hc => ha hc.symm) rest).symm

theorem synthNacks_count_aux (pl : Pipeline) (tid : String) (nk : TransportLayerNack)
    (sn : Nat) (l : List NackPair) :
    (l.flatMap (fun np => np.packetList.filterMap (processSn pl tid nk))).count
        { senderSSRC := nk.senderSSRC, mediaSSRC := nk.mediaSSRC,
          nacks := [NackPair.mk sn 0] } =
      if pl.writePacket tid nk.mediaSSRC sn then 0
      else (l.flatMap NackPair.packetList).count sn := by
  induction l with
  | nil => simp
  | cons np rest ih =>
    rw [List.flatMap_cons, List.flatMap_cons, List.count_append, List.count_append,
        ih, count_processSn]
    split_ifs
    · rfl
    · rfl

theorem synthNacks_count (pl : Pipeline) (tid : String) (nk : TransportLayerNack)
    (sn : Nat) :
    (synthNacks pl tid nk).count
        { senderSSRC := nk.senderSSRC, mediaSSRC := nk.mediaSSRC,
          nacks := [NackPair.mk sn 0] } =
      if pl.writePacket tid nk.mediaSSRC sn then 0 else (nackExpansion nk).count sn :=
  synthNacks_count_aux pl tid nk sn nk.nacks

/-- C5: while processing one retransmission request, every requested
sequence number whose packet the pipeline cache still holds is served
from the cache and never appears in any request forwarded to the
publisher; every requested sequence number reported as a cache miss
yields exactly one synthesized request toward the publisher, carrying
exactly that sequence number and the original sender and media stream
identifiers. -/
theorem subReadRTCP_nack_routing (pl : Pipeline) (tid : String)
    (nk : TransportLayerNack) (sn : Nat) (hmem : sn ∈ nackExpansion nk) :
    (pl.writePacket tid nk.mediaSSRC sn = true ↔ (nk.mediaSSRC, sn) ∈ pl.cache) ∧
    (pl.writePacket tid nk.mediaSSRC sn = true →
      ∀ r ∈ synthNacks pl tid nk, ∀ q ∈ r.nacks, q.packetID ≠ sn) ∧
    (pl.writePacket tid nk.mediaSSRC sn = false →
      (∀ r ∈ synthNacks pl tid nk,
        (∃ q ∈ r.nacks, q.packetID = sn) →
          r = { senderSSRC := nk.senderSSRC, mediaSSRC := nk.mediaSSRC,
                nacks := [NackPair.mk sn 0] }) ∧
      ((nackExpansion nk).Nodup →
        (synthNacks pl tid nk).count
          { senderSSRC := nk.senderSSRC, mediaSSRC := nk.mediaSSRC,
            nacks := [NackPair.mk sn 0] } = 1)) := by
  refine ⟨?_, fun hw r hr q hq => ?_, fun hw => ⟨fun r hr hq => ?_, fun hnd => ?_⟩⟩
  · simp [Pipeline.writePacket]
  · obtain ⟨s, hsmem, hmiss, hform⟩ := mem_synthNacks hr
    subst hform
    simp only [List.mem_singleton] at hq
    subst hq
    intro hc
    have hc2 : s = sn := hc
    rw [hc2] at hmiss
    rw [hmiss] at hw
    exact Bool.noConfusion hw
  · obtain ⟨s, hsmem, hmiss, hform⟩ := mem_synthNacks hr
    subst hform
    obtain ⟨q, hq1, hq2⟩ := hq
    simp only [List.mem_singleton] at hq1
    subst hq1
    have hq3 : s = sn := hq2
    rw [hq3]
  · have hne : ¬ (pl.writePacket tid nk.mediaSSRC sn = true) := by
      rw [hw]
      exact fun hc => Bool.noConfusion hc
    rw [synthNacks_count, if_neg hne]
    exact List.count_eq_one_of_mem hnd hmem

/-- Witness for C5: cache holding (stream 7, sequence 3), one request
for stream 7 covering sequences 3 and 4. Sequence 3 is served and never
forwarded; sequence 4 produces exactly one synthesized request. -/
theorem subReadRTCP_nack_routing_witness :
    (∀ r ∈ synthNacks ⟨[(7, 3)]⟩ "sub" ⟨9, 7, [⟨3, 1⟩]⟩, ∀ q ∈ r.nacks, q.packetID ≠ 3) ∧
    (synthNacks ⟨[(7, 3)]⟩ "sub" ⟨9, 7, [⟨3, 1⟩]⟩).count ⟨9, 7, [⟨4, 0⟩]⟩ = 1 := by
  refine ⟨(subReadRTCP_nack_routing ⟨[(7, 3)]⟩ "sub" ⟨9, 7, [⟨3, 1⟩]⟩ 3
    (by decide)).2.1 (by decide), ?_⟩
  exact ((subReadRTCP_nack_routing ⟨[(7, 3)]⟩ "sub" ⟨9, 7, [⟨3, 1⟩]⟩ 4
    (by decide)).2.2 (by decide)).2 (by decide)

/-- The teardown steps Close performs, in program order (lines 287-296). -/
inductive CloseEvent
  | pcClose
  | closeStopCh
  | wgWait
  | closeRtpCh
  | closePliCh
  deriving DecidableEq

/-- A Go channel as seen by close(): open or closed. -/
structure ChanState where
  isClosed : Bool
  deriving DecidableEq

/-- Go close(ch): closing an already-closed channel panics at run time,
modelled as none. -/
def chanClose (c : ChanState) : Option ChanState :=
  if c.isClosed then none else some ⟨true⟩

/-- The channel and connection state Close manipulates: the shutdown
channel, the inbound packet channel, the keyframe-request channel, and
whether the peer connection has been torn down. -/
structure CloseChans where
  stopCh : ChanState
  rtpCh : ChanState
  pliCh : ChanState
  pcClosed : Bool
  deriving DecidableEq

/-- Close (lines 287-296), as a sequential state transformer that also
records the teardown steps in order: tear down the peer connection,
close the shutdown channel, wait on the WaitGroup, close the inbound
packet channel, close the keyframe-request channel. A close of an
already-closed channel panics (none). -/
def closeTransport (s : CloseChans) : Option (CloseChans × List CloseEvent) :=
  let s₁ : CloseChans := { s with pcClosed := true }
  match chanClose s₁.stopCh with
  | none => none
  | some st =>
    let s₂ := { s₁ with stopCh := st }
    match chanClose s₂.rtpCh with
    | none => none
    | some rt =>
      let s₃ := { s₂ with rtpCh := rt }
      match chanClose s₃.pliCh with
      | none => none
      | some pl =>
        some ({ s₃ with pliCh := pl },
          [CloseEvent.pcClose, CloseEvent.closeStopCh, CloseEvent.wgWait,
           CloseEvent.closeRtpCh, CloseEvent.closePliCh])

/-- C2: whenever Close completes, the teardown steps it performed occur
in the strict order: peer-connection teardown, then the shutdown signal,
then the wait for every spawned loop, then the inbound packet channel
close, then the keyframe-request channel close. -/
theorem closeTransport_order (s s₂ : CloseChans) (evs : List CloseEvent)
    (h : closeTransport s = some (s₂, evs)) :
    evs.indexOf CloseEvent.pcClose < evs.indexOf CloseEvent.closeStopCh ∧
    evs.indexOf CloseEvent.closeStopCh < evs.indexOf CloseEvent.wgWait ∧
    evs.indexOf CloseEvent.wgWait < evs.indexOf CloseEvent.closeRtpCh ∧
    evs.indexOf CloseEvent.closeRtpCh < evs.indexOf CloseEvent.closePliCh := by
  simp only [closeTransport, chanClose] at h
  split_ifs at h
  injection h with h1
  injection h1 with h2 h3
  subst h3
  decide

/-- Witness for C2 on a freshly created transport with all channels
open. -/
theorem closeTransport_order_witness :
    ([CloseEvent.pcClose, CloseEvent.closeStopCh, CloseEvent.wgWait,
      CloseEvent.closeRtpCh, CloseEvent.closePliCh].indexOf CloseEvent.pcClose <
      [CloseEvent.pcClose, CloseEvent.closeStopCh, CloseEvent.wgWait,
       CloseEvent.closeRtpCh, CloseEvent.closePliCh].indexOf CloseEvent.closeStopCh) ∧
    ([CloseEvent.pcClose, CloseEvent.closeStopCh, CloseEvent.wgWait,
      CloseEvent.closeRtpCh, CloseEvent.closePliCh].indexOf CloseEvent.closeStopCh <
      [CloseEvent.pcClose, CloseEvent.closeStopCh, CloseEvent.wgWait,
       CloseEvent.closeRtpCh, CloseEvent.closePliCh].indexOf CloseEvent.wgWait) ∧
    ([CloseEvent.pcClose, CloseEvent.closeStopCh, CloseEvent.wgWait,
      CloseEvent.closeRtpCh, CloseEvent.closePliCh].indexOf CloseEvent.wgWait <
      [CloseEvent.pcClose, CloseEvent.closeStopCh, CloseEvent.wgWait,
       CloseEvent.closeRtpCh, CloseEvent.closePliCh].indexOf CloseEvent.closeRtpCh) ∧
    ([CloseEvent.pcClose, CloseEvent.closeStopCh, CloseEvent.wgWait,
      CloseEvent.closeRtpCh, CloseEvent.closePliCh].indexOf CloseEvent.closeRtpCh <
      [CloseEvent.pcClose, CloseEvent.closeStopCh, CloseEvent.wgWait,
       CloseEvent.closeRtpCh, CloseEvent.closePliCh].indexOf CloseEvent.closePliCh) :=
  closeTransport_order ⟨⟨false⟩, ⟨false⟩, ⟨false⟩, false⟩
    ⟨⟨true⟩, ⟨true⟩, ⟨true⟩, true⟩ _ rfl

/-- C3 counterexample: on a freshly created transport the first Close
completes, but a second Close after the completed first panics when it
re-closes the already-closed shutdown channel — Go panics on close of a
closed channel — so a second invocation does not complete without a
runtime panic. -/
theorem closeTransport_twice_panics :
    closeTransport ⟨⟨false⟩, ⟨false⟩, ⟨false⟩, false⟩ =
      some (⟨⟨true⟩, ⟨true⟩, ⟨true⟩, true⟩,
        [CloseEvent.pcClose, CloseEvent.closeStopCh, CloseEvent.wgWait,
         CloseEvent.closeRtpCh, CloseEvent.closePliCh]) ∧
    closeTransport ⟨⟨true⟩, ⟨true⟩, ⟨true⟩, true⟩ = none := by
  decide

/-- C3 amended: Close is single-shot — a first invocation on a transport
whose channels are open completes without a panic, and any second
invocation on the state a completed Close leaves behind panics. -/
theorem closeTransport_single_shot (s : CloseChans) :
    (s.stopCh.isClosed = false → s.rtpCh.isClosed = false → s.pliCh.isClosed = false →
      (closeTransport s).isSome = true) ∧
    (∀ s₂ evs, closeTransport s = some (s₂, evs) → closeTransport s₂ = none) := by
  constructor
  · intro h1 h2 h3
    simp [closeTransport, chanClose, h1, h2, h3]
  · intro s₂ evs h
    simp only [closeTransport, chanClose] at h
    split_ifs at h
    injection h with h1
    injection h1 with h2 h3
    subst h2
    simp [closeTransport, chanClose]

/-- Witness for C3 amended on a freshly created transport. -/
theorem closeTransport_single_shot_witness :
    (closeTransport ⟨⟨false⟩, ⟨false⟩, ⟨false⟩, false⟩).isSome = true ∧
    closeTransport ⟨⟨true⟩, ⟨true⟩, ⟨true⟩, true⟩ = none :=
  ⟨(closeTransport_single_shot ⟨⟨false⟩, ⟨false⟩, ⟨false⟩, false⟩).1 rfl rfl rfl,
   (closeTransport_single_shot ⟨⟨false⟩, ⟨false⟩, ⟨false⟩, false⟩).2
     ⟨⟨true⟩, ⟨true⟩, ⟨true⟩, true⟩
     [CloseEvent.pcClose, CloseEvent.closeStopCh, CloseEvent.wgWait,
      CloseEvent.closeRtpCh, CloseEvent.closePliCh] rfl⟩

/-- The PLI-writer goroutine spawned per video track in the OnTrack
handler (lines 140-152): it loops selecting between a receive on the
keyframe channel (then writing a PLI) and the shutdown channel. -/
inductive G1State
  | selecting
  | done
  deriving DecidableEq

/-- The sendPLI ticker goroutine (lines 213-230): it loops selecting
between the ticker (on a tick it executes the blocking unbuffered send
pliCh <- 1 inside the case body, outside any select) and the shutdown
channel. -/
inductive G2State
  | selecting
  | blockedSend
  | done
  deriving DecidableEq

/-- The caller of Close (lines 287-296): before the call, inside
wg.Wait, or returned. -/
inductive CloserState
  | idle
  | waiting
  | returned
  deriving DecidableEq

/-- The concurrent state of a publisher transport with one video track
around shutdown: the PLI-writer loop, the sendPLI ticker loop, whether
the shutdown channel has been closed, and the Close caller. The
read loop is omitted: it exits with end-of-stream as soon as the peer
connection is torn down, before the states this model explores. -/
structure PliSystem where
  g1 : G1State
  g2 : G2State
  stopClosed : Bool
  closer : CloserState
  deriving DecidableEq

/-- The interleaving semantics: every Go-schedulable step from a state.
A select with several ready cases may take any of them, so each ready
case is its own successor. The blocking send pliCh <- 1 sits inside a
case body, so a goroutine parked there observes nothing but a matching
receive; a receive on the closed shutdown channel is always ready once
stopClosed holds; wg.Wait returns only when both loops have called
Done. -/
def pliNext (s : PliSystem) : List PliSystem :=
  (if s.g2 = G2State.selecting then [{ s with g2 := G2State.blockedSend }] else []) ++
  (if s.g2 = G2State.selecting ∧ s.stopClosed = true then [{ s with g2 := G2State.done }] else []) ++
  (if s.g2 = G2State.blockedSend ∧ s.g1 = G1State.selecting then [{ s with g2 := G2State.selecting }] else []) ++
  (if s.g1 = G1State.selecting ∧ s.stopClosed = true then [{ s with g1 := G1State.done }] else []) ++
  (if s.closer = CloserState.idle then [{ s with stopClosed := true, closer := CloserState.waiting }] else []) ++
  (if s.closer = CloserState.waiting ∧ s.g1 = G1State.done ∧ s.g2 = G2State.done
    then [{ s with closer := CloserState.returned }] else [])

/-- Reachability under the interleaving semantics. -/
def pliReach (a b : PliSystem) : Prop :=
  Relation.ReflTransGen (fun x y => y ∈ pliNext x) a b

/-- The initial state: both loops selecting, shutdown not signalled,
Close not yet called. -/
def pliInit : PliSystem :=
  ⟨G1State.selecting, G2State.selecting, false, CloserState.idle⟩

/-- The deadlocked state: the ticker loop is parked in pliCh <- 1, the
PLI-writer loop took the shutdown branch and exited, and Close is inside
wg.Wait. -/
def pliStuck : PliSystem :=
  ⟨G1State.done, G2State.blockedSend, true, CloserState.waiting⟩

/-- C9: the shutdown protocol can deadlock. From the initial state of a
publisher transport with one video track there is an execution — the
ticker fires and the sendPLI loop enters the blocking unbuffered send,
Close tears down the connection and closes the shutdown channel, the
only keyframe-channel receiver takes its shutdown branch and exits —
that reaches a state with no enabled step at all, in which Close has not
returned from wg.Wait and the sendPLI loop has not terminated. This
refutes termination of every loop and return of close(). -/
theorem close_deadlock_reachable :
    pliReach pliInit pliStuck ∧
    pliNext pliStuck = [] ∧
    pliStuck.closer ≠ CloserState.returned ∧
    pliStuck.g2 ≠ G2State.done := by
  refine ⟨?_, by decide, by decide, by decide⟩
  have h1 : (⟨G1State.selecting, G2State.blockedSend, false, CloserState.idle⟩ : PliSystem) ∈
      pliNext pliInit := by decide
  have h2 : (⟨G1State.selecting, G2State.blockedSend, true, CloserState.waiting⟩ : PliSystem) ∈
      pliNext ⟨G1State.selecting, G2State.blockedSend, false, CloserState.idle⟩ := by decide
  have h3 : pliStuck ∈
      pliNext ⟨G1State.selecting, G2State.blockedSend, true, CloserState.waiting⟩ := by decide
  exact Relation.ReflTransGen.tail
    (Relation.ReflTransGen.tail
      (Relation.ReflTransGen.tail Relation.ReflTransGen.refl h1) h2) h3

end Ion
